import Mathlib

/-!
Verification development for the Travel-Planner repository.

The repository ships a React/TypeScript chat frontend (`frontend/src`) and a
FastAPI/Python aggregation backend.  The backend source (`main.py`, `cache.py`,
`models.py`, `api_clients/*`) is not part of the checked-in tree available
here, so the aggregation engine is modelled from the specification (each such
definition carries a doc comment starting `Modelled from the spec:`).  The
frontend data shapes (`frontend/src/types.ts`), the chat submit handler
(`frontend/src/components/ChatInterface.tsx`) and the API service
(`frontend/src/api.ts`) are embedded directly from the source.

Numbers that are `number` in TypeScript / `float` in Python are modelled as
`Rat`; machine floating point plays no role in any property below.
-/

namespace TravelPlanner

/-- From `frontend/src/types.ts` (`WeatherDay`): one normalized forecast day.
The spec (§3) calls this shape `ForecastDay`. -/
structure WeatherDay where
  date : String
  temp_avg : Rat
  temp_min : Rat
  temp_max : Rat
  description : String
  humidity : Rat
  wind_speed : Rat
  deriving Repr, DecidableEq

/-- From `frontend/src/types.ts` (`Attraction`): a normalized point of
interest; `distance`, `address` and `rating` are optional. -/
structure Attraction where
  name : String
  category : String
  distance : Option Rat
  address : Option String
  rating : Option Rat
  deriving Repr, DecidableEq

/-- From `frontend/src/types.ts` (`DistanceCluster`): a named distance band
with its member count and member attraction names. -/
structure DistanceCluster where
  cluster_name : String
  count : Nat
  attractions : List String
  deriving Repr, DecidableEq

/-- From `frontend/src/types.ts` (`TravelNotes`). -/
structure TravelNotes where
  distance_clusters : List DistanceCluster
  total_attractions : Nat
  deriving Repr, DecidableEq

/-- Coordinate pair, the `coordinates{lat,lon}` sub-object of the trip model. -/
structure Coordinates where
  lat : Rat
  lon : Rat
  deriving Repr, DecidableEq

/-- From `frontend/src/types.ts` (`TripData`): the composed trip model.  The
spec (§3) calls this `TripPlan`. -/
structure TripData where
  city : String
  country : Option String
  coordinates : Coordinates
  days : Nat
  weather_forecast : List WeatherDay
  top_attractions : List Attraction
  travel_notes : TravelNotes
  cached : Bool
  deriving Repr, DecidableEq

/-- Spec name (§3) for the trip model; same shape as `TripData`. -/
abbrev TripPlan := TripData

/-- Modelled from the spec (§7): the two error kinds surfaced to callers of
the aggregation engine. -/
inductive PlanError where
  | InvalidRequest
  | LocationNotFound
  deriving Repr, DecidableEq

/-- Modelled from the spec (§3): a resolved location, produced by the
geocoder adapter. -/
structure Location where
  city : String
  country : Option String
  lat : Rat
  lon : Rat
  deriving Repr, DecidableEq

/-- Modelled from the spec (§3/§4.3): one sub-daily raw weather sample from
the weather provider. -/
structure WeatherSample where
  temp : Rat
  humidity : Rat
  wind_speed : Rat
  description : String
  deriving Repr, DecidableEq

/-- Modelled from the spec (§3): the weather provider's raw response grouped
into daily buckets — a calendar date together with its sub-daily samples. -/
abbrev DayBucket := String × List WeatherSample

/-- Modelled from the spec (§4.3): one raw point of interest from the places
provider, before normalization. -/
structure RawPlace where
  name : String
  category : String
  lat : Rat
  lon : Rat
  address : Option String
  rating : Option Rat
  deriving Repr, DecidableEq

/-- Internal normalized attraction as the engine ranks and clusters it: the
distance from the query coordinate has been computed, so it is total here
(the spec, §3, says distance is computed, not trusted from the source). -/
structure PlacedAtt where
  name : String
  category : String
  dist : Rat
  address : Option String
  rating : Option Rat
  deriving Repr, DecidableEq

/-- Forget the computed distance's totality: the outward `Attraction` shape. -/
def PlacedAtt.toAttraction (a : PlacedAtt) : Attraction :=
  { name := a.name, category := a.category, distance := some a.dist,
    address := a.address, rating := a.rating }

/-- Modelled from the spec (§6/§9): engine configuration — top-N cap, the
supported day range, the named distance-cluster thresholds (band upper
bounds, nearest first) and the name of the farthest band. -/
structure EngineConfig where
  topN : Nat
  minDays : Nat
  maxDays : Nat
  thresholds : List (String × Rat)
  farName : String

/-- Modelled from the spec (§4.3/§9): the adapter dependencies passed into
the engine.  `none` from an adapter is the uniform "source unavailable"
signal (timeout, rate limit or transport error).  `dist` is the distance
formula over (lat₁, lon₁, lat₂, lon₂); the spec fixes only that it is "a
haversine or planar-approximation formula", so it is a dependency here. -/
structure Env where
  geocode : String → Option Location
  fetchWeather : Rat → Rat → Nat → Option (List DayBucket)
  fetchPlaces : Rat → Rat → Option (List RawPlace)
  dist : Rat → Rat → Rat → Rat → Rat

/-- Whitespace test used by the trim step of city normalization. -/
def isSpaceChar (c : Char) : Bool := c = ' ' || c = '\t' || c = '\n' || c = '\r'

/-- Drop leading whitespace characters. -/
def dropLeadingSpaces : List Char → List Char
  | [] => []
  | c :: cs => if isSpaceChar c then dropLeadingSpaces cs else c :: cs

/-- Trim whitespace from both ends of a character list. -/
def trimChars (cs : List Char) : List Char :=
  (dropLeadingSpaces ((dropLeadingSpaces cs).reverse)).reverse

/-- Modelled from the spec (§3): lower-cased, whitespace-normalized city
string used for validation and the cache key (lower-case the characters,
trim surrounding whitespace). -/
def normalizeCity (s : String) : String :=
  String.mk (trimChars (s.data.map Char.toLower))

/-- Modelled from the spec (§4.1 step 1): clamp the requested day count to
the nearest bound of the supported range. -/
def clampDays (cfg : EngineConfig) (d : Int) : Nat :=
  max cfg.minDays (min cfg.maxDays d.toNat)

/-- Modelled from the spec (§3): cache key from the normalized city string
and the clamped day count. -/
def cacheKey (city : String) (d : Nat) : String :=
  normalizeCity city ++ ":" ++ toString d

/-- The cache store state: key-value pairs of serialized trip plans. -/
abbrev Cache := List (String × TripPlan)

/-- Modelled from the spec (§4.2): cache lookup. -/
def cacheGet (k : String) : Cache → Option TripPlan
  | [] => none
  | (k', v) :: c => if k' = k then some v else cacheGet k c

/-- Modelled from the spec (§4.2): cache write (entries are written whole). -/
def cacheSet (k : String) (v : TripPlan) (c : Cache) : Cache := (k, v) :: c

/-- Mean of a list of rationals (0 for the empty list). -/
def meanRat (l : List Rat) : Rat := l.sum / (l.length : Rat)

/-- Least element of a list of rationals (0 for the empty list). -/
def listMin : List Rat → Rat
  | [] => 0
  | x :: xs => xs.foldl min x

/-- Greatest element of a list of rationals (0 for the empty list). -/
def listMax : List Rat → Rat
  | [] => 0
  | x :: xs => xs.foldl max x

/-- Modelled from the spec (§4.1 step 6): aggregate one day's sub-daily
samples into a daily summary — average is the mean of the samples, min/max
are the sample extremes. -/
def normalizeDay (b : DayBucket) : WeatherDay :=
  { date := b.1,
    temp_avg := meanRat (b.2.map (·.temp)),
    temp_min := listMin (b.2.map (·.temp)),
    temp_max := listMax (b.2.map (·.temp)),
    description := ((b.2.head?).map (·.description)).getD "",
    humidity := meanRat (b.2.map (·.humidity)),
    wind_speed := meanRat (b.2.map (·.wind_speed)) }

/-- Modelled from the spec (§4.1 step 6): normalize the weather provider's
daily buckets into the ForecastDay sequence. -/
def normalizeWeather (bs : List DayBucket) : List WeatherDay := bs.map normalizeDay

/-- Modelled from the spec (§3): deduplicate raw places with name+category
as the dedup key, keeping first occurrences. -/
def dedupPlaces (ps : List RawPlace) : List RawPlace :=
  ps.foldl
    (fun acc p =>
      if acc.any (fun q => q.name = p.name && q.category = p.category) then acc
      else acc ++ [p])
    []

/-- Modelled from the spec (§4.1 step 6): normalize a raw place, computing
its distance from the query coordinate. -/
def placeOf (env : Env) (loc : Location) (p : RawPlace) : PlacedAtt :=
  { name := p.name, category := p.category,
    dist := env.dist loc.lat loc.lon p.lat p.lon,
    address := p.address, rating := p.rating }

/-- Rating as an order key: a missing rating is the bottom element. -/
def ratingKey (a : PlacedAtt) : WithBot Rat :=
  match a.rating with
  | none => ⊥
  | some r => (r : WithBot Rat)

/-- Modelled from the spec (§4.1 step 7): the composite relevance order —
rating descending with missing rating lowest, ties broken by distance
ascending. -/
def rankLE (a b : PlacedAtt) : Prop :=
  ratingKey b < ratingKey a ∨ (ratingKey a = ratingKey b ∧ a.dist ≤ b.dist)

instance : DecidableRel rankLE := fun a b => by
  unfold rankLE; exact inferInstance

instance : IsTotal PlacedAtt rankLE where
  total a b := by
    rcases lt_trichotomy (ratingKey a) (ratingKey b) with h | h | h
    · exact Or.inr (Or.inl h)
    · rcases le_total a.dist b.dist with hd | hd
      · exact Or.inl (Or.inr ⟨h, hd⟩)
      · exact Or.inr (Or.inr ⟨h.symm, hd⟩)
    · exact Or.inl (Or.inl h)

instance : IsTrans PlacedAtt rankLE where
  trans a b c hab hbc := by
    rcases hab with h1 | ⟨h1, d1⟩
    · rcases hbc with h2 | ⟨h2, _⟩
      · exact Or.inl (h2.trans h1)
      · exact Or.inl (h2 ▸ h1)
    · rcases hbc with h2 | ⟨h2, d2⟩
      · exact Or.inl (h1 ▸ h2)
      · exact Or.inr ⟨h1.trans h2, d1.trans d2⟩

/-- Modelled from the spec (§4.1 step 7): sort by the relevance order and
truncate to top-N. -/
def rankAttractions (cfg : EngineConfig) (l : List PlacedAtt) : List PlacedAtt :=
  (l.insertionSort rankLE).take cfg.topN

/-- Modelled from the spec (§3): the index of the distance band a distance
falls into — the number of band upper bounds not exceeding it, so band 0 is
the nearest band and band `thresholds.length` is beyond every threshold. -/
def bandOf (cfg : EngineConfig) (d : Rat) : Nat :=
  cfg.thresholds.countP (fun t => decide (t.2 ≤ d))

/-- Name of band `i`: the i-th threshold's label, or the farthest band's. -/
def bandName (cfg : EngineConfig) (i : Nat) : String :=
  ((cfg.thresholds.get? i).map (·.1)).getD cfg.farName

/-- Members of band `i` within an attraction list, in list order. -/
def bandMembers (cfg : EngineConfig) (l : List PlacedAtt) (i : Nat) : List PlacedAtt :=
  l.filter (fun a => bandOf cfg a.dist == i)

/-- All distance bands, nearest first, including empty ones. -/
def clustersAll (cfg : EngineConfig) (l : List PlacedAtt) : List DistanceCluster :=
  (List.range (cfg.thresholds.length + 1)).map
    (fun i =>
      { cluster_name := bandName cfg i,
        count := (bandMembers cfg l i).length,
        attractions := (bandMembers cfg l i).map (·.name) })

/-- Modelled from the spec (§3/§4.1 step 7): partition the ranked attraction
list into distance clusters, nearest band first, dropping empty bands (so an
empty attraction list yields an empty cluster list). -/
def clusterAttractions (cfg : EngineConfig) (l : List PlacedAtt) : List DistanceCluster :=
  (clustersAll cfg l).filter (fun c => !c.attractions.isEmpty)

/-- Modelled from the spec (§4.1 step 6): the normalized forecast section,
empty when the weather source is unavailable (best-effort fallback). -/
def freshForecast (env : Env) (loc : Location) (d : Nat) : List WeatherDay :=
  match env.fetchWeather loc.lat loc.lon d with
  | none => []
  | some bs => normalizeWeather bs

/-- Modelled from the spec (§4.1 steps 6–7): the deduplicated, normalized,
ranked, truncated attraction list; empty when the places source is
unavailable (best-effort fallback). -/
def freshRanked (env : Env) (cfg : EngineConfig) (loc : Location) : List PlacedAtt :=
  match env.fetchPlaces loc.lat loc.lon with
  | none => []
  | some raw => rankAttractions cfg ((dedupPlaces raw).map (placeOf env loc))

/-- Modelled from the spec (§4.1 steps 4–8): the trip plan assembled on a
cache miss after a successful geocode. -/
def freshPlan (env : Env) (cfg : EngineConfig) (loc : Location) (d : Nat) : TripPlan :=
  { city := loc.city,
    country := loc.country,
    coordinates := { lat := loc.lat, lon := loc.lon },
    days := d,
    weather_forecast := freshForecast env loc d,
    top_attractions := (freshRanked env cfg loc).map PlacedAtt.toAttraction,
    travel_notes :=
      { distance_clusters := clusterAttractions cfg (freshRanked env cfg loc),
        total_attractions := (freshRanked env cfg loc).length },
    cached := false }

/-- Modelled from the spec (§4.1): the aggregation engine's public
operation.  Returns the typed outcome together with the resulting cache
state (unchanged unless a fresh plan is written). -/
def planTrip (env : Env) (cfg : EngineConfig) (cache : Cache) (city : String)
    (days : Int) : Except PlanError TripPlan × Cache :=
  if (normalizeCity city).isEmpty then (Except.error PlanError.InvalidRequest, cache)
  else
    match cacheGet (cacheKey city (clampDays cfg days)) cache with
    | some p => (Except.ok { p with cached := true }, cache)
    | none =>
      match env.geocode city with
      | none => (Except.error PlanError.LocationNotFound, cache)
      | some loc =>
        (Except.ok (freshPlan env cfg loc (clampDays cfg days)),
         cacheSet (cacheKey city (clampDays cfg days))
           (freshPlan env cfg loc (clampDays cfg days)) cache)

/-- A JSON value, for stating the wire shape of the trip model and of the
chat API exchange. -/
inductive Json where
  | null
  | bool (b : Bool)
  | num (q : Rat)
  | str (s : String)
  | arr (elems : List Json)
  | obj (fields : List (String × Json))

/-- Top-level keys of a JSON object (empty for non-objects). -/
def Json.keys : Json → List String
  | .obj fs => fs.map (·.1)
  | _ => []

/-- Serialize an optional string (absent values are serialized as null, as
in the README's example payload, e.g. `"rating": null`). -/
def jsonOfOptStr : Option String → Json
  | none => Json.null
  | some s => Json.str s

/-- Serialize an optional number (absent values are serialized as null). -/
def jsonOfOptNum : Option Rat → Json
  | none => Json.null
  | some q => Json.num q

/-- The `coordinates{lat,lon}` sub-object. -/
def coordJson (c : Coordinates) : Json :=
  Json.obj [("lat", Json.num c.lat), ("lon", Json.num c.lon)]

/-- One forecast day on the wire, per the README's `/trip` example. -/
def weatherDayJson (w : WeatherDay) : Json :=
  Json.obj [("date", Json.str w.date), ("temp_avg", Json.num w.temp_avg),
    ("temp_min", Json.num w.temp_min), ("temp_max", Json.num w.temp_max),
    ("description", Json.str w.description), ("humidity", Json.num w.humidity),
    ("wind_speed", Json.num w.wind_speed)]

/-- One attraction on the wire, per `types.ts` and the README example. -/
def attractionJson (a : Attraction) : Json :=
  Json.obj [("name", Json.str a.name), ("category", Json.str a.category),
    ("distance", jsonOfOptNum a.distance), ("address", jsonOfOptStr a.address),
    ("rating", jsonOfOptNum a.rating)]

/-- One distance cluster on the wire. -/
def clusterJson (c : DistanceCluster) : Json :=
  Json.obj [("cluster_name", Json.str c.cluster_name),
    ("count", Json.num (c.count : Rat)),
    ("attractions", Json.arr (c.attractions.map Json.str))]

/-- The travel-notes sub-object on the wire. -/
def travelNotesJson (t : TravelNotes) : Json :=
  Json.obj [("distance_clusters", Json.arr (t.distance_clusters.map clusterJson)),
    ("total_attractions", Json.num (t.total_attractions : Rat))]

/-- The trip model as the engine exposes it to the HTTP layer: a JSON object
with the fields of `TripData` in `types.ts` / spec §6. -/
def tripJson (p : TripPlan) : Json :=
  Json.obj [("city", Json.str p.city), ("country", jsonOfOptStr p.country),
    ("coordinates", coordJson p.coordinates), ("days", Json.num (p.days : Rat)),
    ("weather_forecast", Json.arr (p.weather_forecast.map weatherDayJson)),
    ("top_attractions", Json.arr (p.top_attractions.map attractionJson)),
    ("travel_notes", travelNotesJson p.travel_notes),
    ("cached", Json.bool p.cached)]

/-- From `frontend/src/types.ts` (`ChatMessage`): one chat bubble.  The
wall-clock `id` and `timestamp` fields play no role in any claim and are
omitted from the model. -/
structure ChatMsg where
  content : String
  isUser : Bool
  deriving Repr, DecidableEq

/-- The state of `ChatInterface` relevant to submission: the `messages`,
`input` and `isLoading` React state cells
(`frontend/src/components/ChatInterface.tsx`). -/
structure ChatState where
  messages : List ChatMsg
  input : String
  isLoading : Bool
  deriving Repr, DecidableEq

/-- JavaScript's `String.prototype.trim()`: strip surrounding whitespace. -/
def trimStr (s : String) : String := String.mk (trimChars s.data)

/-- From `ChatInterface.tsx`: the send button's `disabled` condition,
`!input.trim() || isLoading` (an empty trimmed string is falsy in JS). -/
def sendDisabled (s : ChatState) : Bool := (trimStr s.input).isEmpty || s.isLoading

/-- From `ChatInterface.tsx` (`handleSubmit`), up to the issuing of the
network request: the guard `if (!input.trim() || isLoading) return;` makes
the submit a no-op; otherwise the trimmed input is appended as a user
message, the input is cleared, `isLoading` is set, and the trimmed message
is sent (returned as `some`).  The asynchronous response handling is beyond
the submitted-message claim and not modelled. -/
def handleSubmit (s : ChatState) : ChatState × Option String :=
  if (trimStr s.input).isEmpty || s.isLoading then (s, none)
  else
    ({ messages := s.messages ++ [{ content := trimStr s.input, isUser := true }],
       input := "", isLoading := true },
     some (trimStr s.input))

/-- An HTTP response as `fetch` presents it to `api.ts`: a status code and
the (successfully parsed) JSON body.  `response.json()` parse failure is a
transport-level failure outside this model. -/
structure HttpResponse where
  status : Nat
  body : Json

/-- `response.ok` per the fetch standard: status in the 2xx range. -/
def responseOk (r : HttpResponse) : Bool :=
  decide (200 ≤ r.status) && decide (r.status < 300)

/-- From `frontend/src/api.ts` (`sendChatMessage`): on a non-ok response it
throws `Error('Failed to send message: ' + response.status)` (modelled as
`Except.error` carrying the message); on an ok response it returns the
parsed body.  The surrounding try/catch only logs and rethrows. -/
def sendChatMessage (r : HttpResponse) : Except String Json :=
  if responseOk r then Except.ok r.body
  else Except.error ("Failed to send message: " ++ toString r.status)

/-- Example configuration for concrete runs: day range 1–5 (README: `days`
1–5, default 3), top-10 attractions, the README's cluster bands. -/
def exCfg : EngineConfig :=
  { topN := 10, minDays := 1, maxDays := 5,
    thresholds := [("Within 2km (Walking distance)", 2), ("2-5km (Short ride)", 5)],
    farName := "Beyond 5km" }

/-- Example resolved location for the city Rome. -/
def exLoc : Location :=
  { city := "Rome", country := some "Italy", lat := 40, lon := 12 }

/-- Example geocoder: resolves Rome, fails on every other city (e.g. the
spec's unknown city `"Zzzxyqplace"`). -/
def exGeocode : String → Option Location :=
  fun s => if normalizeCity s = "rome" then some exLoc else none

/-- The rational 1/10, as an explicit normalized fraction. -/
def qTenth : Rat := ⟨1, 10, by decide, by decide⟩

/-- The rational 1/2, as an explicit normalized fraction. -/
def qHalf : Rat := ⟨1, 2, by decide, by decide⟩

/-- The rational 9/2 = 4.5, as an explicit normalized fraction. -/
def qNineHalves : Rat := ⟨9, 2, by decide, by decide⟩

/-- Example distance dependency: the raw places below carry their intended
distance from the query point in their latitude coordinate, so the distance
formula reads it off directly (the spec leaves the formula's choice to
configuration; any formula attaining these values on these points works). -/
def exDist (_la1 _lo1 la2 _lo2 : Rat) : Rat := la2

/-- Example weather payload: one (empty) daily bucket per requested day, as
the weather adapter contract promises. -/
def exBuckets (n : Nat) : List DayBucket :=
  (List.range n).map (fun i => (toString i, []))

/-- The three attractions of the spec's ranking example (§8): A rated 4.5 at
distance 1.0, B unrated at distance 0.1, C rated 4.5 at distance 0.5
(distances carried in the latitude coordinate, see `exDist`). -/
def exRawPlaces : List RawPlace :=
  [{ name := "A", category := "Landmark", lat := 1, lon := 12,
     address := none, rating := some qNineHalves },
   { name := "B", category := "Museum", lat := qTenth, lon := 12,
     address := none, rating := none },
   { name := "C", category := "Park", lat := qHalf, lon := 12,
     address := none, rating := some qNineHalves }]

/-- Example environment in which every adapter succeeds. -/
def envGood : Env :=
  { geocode := exGeocode,
    fetchWeather := fun _ _ n => some (exBuckets n),
    fetchPlaces := fun _ _ => some exRawPlaces,
    dist := exDist }

/-- Example environment whose weather source is unavailable. -/
def envNoWeather : Env := { envGood with fetchWeather := fun _ _ _ => none }

/-- Example environment whose places source is unavailable. -/
def envNoPlaces : Env := { envGood with fetchPlaces := fun _ _ => none }

/-- Example environment with both enrichment sources unavailable. -/
def envNoSources : Env :=
  { envGood with fetchWeather := fun _ _ _ => none,
                 fetchPlaces := fun _ _ => none }

/-- Example environment whose geocoder fails on every city. -/
def envGeoFail : Env := { envGood with geocode := fun _ => none }

/-- The cluster/count invariant of a trip plan: cluster counts sum to
`total_attractions`, and the flattened cluster member names are exactly the
names of the ranked attraction list, each exactly once. -/
def PlanInv (p : TripPlan) : Prop :=
  ((p.travel_notes.distance_clusters.map (·.count)).sum =
      p.travel_notes.total_attractions) ∧
  List.Perm ((p.travel_notes.distance_clusters.map (·.attractions)).flatten)
    (p.top_attractions.map (·.name))

/-- A cache state is well formed when every stored plan satisfies the
cluster/count invariant (every entry was written by the engine). -/
def CacheWF (c : Cache) : Prop := ∀ k p, (k, p) ∈ c → PlanInv p

section PartitionLemmas

variable {α : Type _}

lemma flatten_map_nil (is : List Nat) :
    (is.map (fun _ => ([] : List α))).flatten = [] := by
  induction is with
  | nil => rfl
  | cons i is ih => simp [ih]

/-- Consing an element whose fiber index occurs once in the index list inserts
it exactly once into the flattened fiber decomposition. -/
lemma flatten_fibers_cons (f : α → Nat) (a : α) (l : List α) :
    ∀ is : List Nat, f a ∈ is → is.Nodup →
      List.Perm ((is.map (fun i => (a :: l).filter (fun x => f x == i))).flatten)
        (a :: (is.map (fun i => l.filter (fun x => f x == i))).flatten) := by
  intro is
  induction is with
  | nil => intro h; simp at h
  | cons i is ih =>
    intro hmem hnd
    rw [List.map_cons, List.map_cons, List.flatten_cons, List.flatten_cons]
    by_cases h : f a = i
    · have hhead : (a :: l).filter (fun x => f x == i) =
          a :: l.filter (fun x => f x == i) := by
        simp [List.filter_cons, h]
      have htail : is.map (fun j => (a :: l).filter (fun x => f x == j)) =
          is.map (fun j => l.filter (fun x => f x == j)) := by
        apply List.map_congr_left
        intro j hj
        have hne : f a ≠ j := by
          intro hfa
          exact (List.nodup_cons.mp hnd).1 (by rw [← h, hfa]; exact hj)
        simp [List.filter_cons, hne]
      rw [hhead, htail, List.cons_append]
    · have hhead : (a :: l).filter (fun x => f x == i) =
          l.filter (fun x => f x == i) := by
        simp [List.filter_cons, h]
      rw [hhead]
      have hmem' : f a ∈ is := by
        rcases List.mem_cons.mp hmem with h' | h'
        · exact absurd h' h
        · exact h'
      refine ((ih hmem' (List.nodup_cons.mp hnd).2).append_left _).trans ?_
      exact List.perm_middle

/-- Decomposing a list into the fibers of an index function and flattening
back is a permutation of the original list. -/
lemma flatten_fibers_perm (f : α → Nat) (n : Nat) :
    ∀ l : List α, (∀ a ∈ l, f a < n) →
      List.Perm (((List.range n).map (fun i => l.filter (fun x => f x == i))).flatten) l := by
  intro l
  induction l with
  | nil =>
    intro _
    simp only [List.filter_nil]
    rw [flatten_map_nil]
  | cons a l ih =>
    intro h
    have ha : f a ∈ List.range n := List.mem_range.mpr (h a (List.mem_cons_self a l))
    refine (flatten_fibers_cons f a l (List.range n) ha (List.nodup_range n)).trans ?_
    exact (ih (fun x hx => h x (List.mem_cons_of_mem a hx))).cons a

end PartitionLemmas

lemma bandOf_lt (cfg : EngineConfig) (d : Rat) :
    bandOf cfg d < cfg.thresholds.length + 1 :=
  Nat.lt_succ_of_le (List.countP_le_length _)

/-- Dropping empty clusters does not change the flattened member-name list. -/
lemma filter_nonempty_flatten (L : List DistanceCluster) :
    ((L.filter (fun c => !c.attractions.isEmpty)).map (·.attractions)).flatten =
      (L.map (·.attractions)).flatten := by
  induction L with
  | nil => rfl
  | cons c L ih =>
    by_cases h : c.attractions.isEmpty
    · have hnil : c.attractions = [] := List.isEmpty_iff.mp h
      simp [List.filter_cons, h, hnil, ih]
    · simp [List.filter_cons, h, ih]

/-- Dropping empty clusters does not change the sum of the counts, provided
each cluster's count agrees with its member list length. -/
lemma filter_nonempty_countsum (L : List DistanceCluster)
    (h : ∀ c ∈ L, c.count = c.attractions.length) :
    ((L.filter (fun c => !c.attractions.isEmpty)).map (·.count)).sum =
      (L.map (·.count)).sum := by
  induction L with
  | nil => rfl
  | cons c L ih =>
    have hc := h c (List.mem_cons_self c L)
    have ih' := ih (fun d hd => h d (List.mem_cons_of_mem c hd))
    by_cases he : c.attractions.isEmpty
    · have hnil : c.attractions = [] := List.isEmpty_iff.mp he
      have hz : c.count = 0 := by rw [hc, hnil]; rfl
      simp [List.filter_cons, he, hz, ih']
    · simp [List.filter_cons, he, ih']

lemma clustersAll_count_eq (cfg : EngineConfig) (l : List PlacedAtt) :
    ∀ c ∈ clustersAll cfg l, c.count = c.attractions.length := by
  intro c hc
  rcases List.mem_map.mp hc with ⟨i, _, rfl⟩
  simp

/-- The flattened fiber decomposition of the attraction list by distance
band, as a permutation of the attraction list. -/
lemma bandMembers_flatten_perm (cfg : EngineConfig) (l : List PlacedAtt) :
    List.Perm
      (((List.range (cfg.thresholds.length + 1)).map
          (fun i => l.filter (fun a => bandOf cfg a.dist == i))).flatten) l := by
  have h := flatten_fibers_perm (fun a : PlacedAtt => bandOf cfg a.dist)
    (cfg.thresholds.length + 1) l (fun a _ => bandOf_lt cfg a.dist)
  exact h

/-- Modelled invariant (spec §3/§8): cluster counts sum to the attraction
list length. -/
lemma clusterAttractions_counts (cfg : EngineConfig) (l : List PlacedAtt) :
    (((clusterAttractions cfg l).map (·.count)).sum) = l.length := by
  rw [clusterAttractions,
    filter_nonempty_countsum (clustersAll cfg l) (clustersAll_count_eq cfg l)]
  have h1 : (clustersAll cfg l).map (·.count) =
      ((List.range (cfg.thresholds.length + 1)).map
        (fun i => l.filter (fun a => bandOf cfg a.dist == i))).map List.length := by
    rw [clustersAll, List.map_map, List.map_map]; rfl
  rw [h1, ← List.length_flatten]
  exact (bandMembers_flatten_perm cfg l).length_eq

/-- Modelled invariant (spec §3/§8): the member names of the clusters, taken
together, are exactly the attraction names, each exactly once. -/
lemma clusterAttractions_names (cfg : EngineConfig) (l : List PlacedAtt) :
    List.Perm (((clusterAttractions cfg l).map (·.attractions)).flatten)
      (l.map (·.name)) := by
  rw [clusterAttractions, filter_nonempty_flatten]
  have h1 : (clustersAll cfg l).map (·.attractions) =
      ((List.range (cfg.thresholds.length + 1)).map
          (fun i => l.filter (fun a => bandOf cfg a.dist == i))).map
        (List.map (·.name)) := by
    rw [clustersAll, List.map_map, List.map_map]; rfl
  rw [h1, ← List.map_flatten]
  exact (bandMembers_flatten_perm cfg l).map (·.name)

lemma planInv_freshPlan (env : Env) (cfg : EngineConfig) (loc : Location)
    (d : Nat) : PlanInv (freshPlan env cfg loc d) := by
  constructor
  · exact clusterAttractions_counts cfg (freshRanked env cfg loc)
  · have hmap : ((freshRanked env cfg loc).map PlacedAtt.toAttraction).map
        (·.name) = (freshRanked env cfg loc).map (·.name) := by
      rw [List.map_map]; rfl
    rw [freshPlan]
    exact hmap ▸ clusterAttractions_names cfg (freshRanked env cfg loc)

lemma planInv_setCached (p : TripPlan) (b : Bool) (h : PlanInv p) :
    PlanInv { p with cached := b } := h

lemma cacheGet_mem (k : String) :
    ∀ (c : Cache) (v : TripPlan), cacheGet k c = some v → (k, v) ∈ c := by
  intro c
  induction c with
  | nil => intro v h; exact absurd h (by simp [cacheGet])
  | cons e c ih =>
    obtain ⟨k', v'⟩ := e
    intro v h
    rw [cacheGet] at h
    by_cases he : k' = k
    · rw [if_pos he] at h
      injection h with hv
      subst hv
      subst he
      exact List.mem_cons_self _ _
    · rw [if_neg he] at h
      exact List.mem_cons_of_mem _ (ih v h)

lemma planTrip_invalid (env : Env) (cfg : EngineConfig) (cache : Cache)
    (city : String) (days : Int) (hv : (normalizeCity city).isEmpty = true) :
    planTrip env cfg cache city days =
      (Except.error PlanError.InvalidRequest, cache) := by
  simp only [planTrip, hv, if_true]

lemma planTrip_hit (env : Env) (cfg : EngineConfig) (cache : Cache)
    (city : String) (days : Int) (p : TripPlan)
    (hv : (normalizeCity city).isEmpty = false)
    (hm : cacheGet (cacheKey city (clampDays cfg days)) cache = some p) :
    planTrip env cfg cache city days =
      (Except.ok { p with cached := true }, cache) := by
  simp only [planTrip, hv, Bool.false_eq_true, if_false, hm]

lemma planTrip_geoFail (env : Env) (cfg : EngineConfig) (cache : Cache)
    (city : String) (days : Int)
    (hv : (normalizeCity city).isEmpty = false)
    (hm : cacheGet (cacheKey city (clampDays cfg days)) cache = none)
    (hg : env.geocode city = none) :
    planTrip env cfg cache city days =
      (Except.error PlanError.LocationNotFound, cache) := by
  simp only [planTrip, hv, Bool.false_eq_true, if_false, hm, hg]

lemma planTrip_fresh (env : Env) (cfg : EngineConfig) (cache : Cache)
    (city : String) (days : Int) (loc : Location)
    (hv : (normalizeCity city).isEmpty = false)
    (hm : cacheGet (cacheKey city (clampDays cfg days)) cache = none)
    (hg : env.geocode city = some loc) :
    planTrip env cfg cache city days =
      (Except.ok (freshPlan env cfg loc (clampDays cfg days)),
       cacheSet (cacheKey city (clampDays cfg days))
         (freshPlan env cfg loc (clampDays cfg days)) cache) := by
  simp only [planTrip, hv, Bool.false_eq_true, if_false, hm, hg]

/-- Exhaustive case analysis of the engine's outcome. -/
lemma planTrip_cases (env : Env) (cfg : EngineConfig) (cache : Cache)
    (city : String) (days : Int) :
    ((normalizeCity city).isEmpty = true ∧
      planTrip env cfg cache city days =
        (Except.error PlanError.InvalidRequest, cache)) ∨
    ((normalizeCity city).isEmpty = false ∧ ∃ p,
      cacheGet (cacheKey city (clampDays cfg days)) cache = some p ∧
      planTrip env cfg cache city days =
        (Except.ok { p with cached := true }, cache)) ∨
    ((normalizeCity city).isEmpty = false ∧
      cacheGet (cacheKey city (clampDays cfg days)) cache = none ∧
      env.geocode city = none ∧
      planTrip env cfg cache city days =
        (Except.error PlanError.LocationNotFound, cache)) ∨
    ((normalizeCity city).isEmpty = false ∧
      cacheGet (cacheKey city (clampDays cfg days)) cache = none ∧ ∃ loc,
      env.geocode city = some loc ∧
      planTrip env cfg cache city days =
        (Except.ok (freshPlan env cfg loc (clampDays cfg days)),
         cacheSet (cacheKey city (clampDays cfg days))
           (freshPlan env cfg loc (clampDays cfg days)) cache)) := by
  by_cases hv : (normalizeCity city).isEmpty = true
  · exact Or.inl ⟨hv, planTrip_invalid env cfg cache city days hv⟩
  · have hv' : (normalizeCity city).isEmpty = false := by
      cases h : (normalizeCity city).isEmpty
      · rfl
      · exact absurd h hv
    cases hm : cacheGet (cacheKey city (clampDays cfg days)) cache with
    | some p =>
      exact Or.inr (Or.inl ⟨hv', p, rfl,
        planTrip_hit env cfg cache city days p hv' hm⟩)
    | none =>
      cases hg : env.geocode city with
      | none =>
        exact Or.inr (Or.inr (Or.inl ⟨hv', rfl, rfl,
          planTrip_geoFail env cfg cache city days hv' hm hg⟩))
      | some loc =>
        exact Or.inr (Or.inr (Or.inr ⟨hv', rfl, loc, rfl,
          planTrip_fresh env cfg cache city days loc hv' hm hg⟩))

lemma freshPlan_cached (env : Env) (cfg : EngineConfig) (loc : Location)
    (d : Nat) : (freshPlan env cfg loc d).cached = false := rfl

lemma freshPlan_days (env : Env) (cfg : EngineConfig) (loc : Location)
    (d : Nat) : (freshPlan env cfg loc d).days = d := rfl

lemma freshForecast_none (env : Env) (loc : Location) (d : Nat)
    (h : env.fetchWeather loc.lat loc.lon d = none) :
    freshForecast env loc d = [] := by
  rw [freshForecast, h]

lemma freshForecast_some (env : Env) (loc : Location) (d : Nat)
    (bs : List DayBucket) (h : env.fetchWeather loc.lat loc.lon d = some bs) :
    (freshForecast env loc d).length = bs.length := by
  rw [freshForecast, h]
  exact List.length_map bs normalizeDay

lemma freshRanked_none (env : Env) (cfg : EngineConfig) (loc : Location)
    (h : env.fetchPlaces loc.lat loc.lon = none) :
    freshRanked env cfg loc = [] := by
  rw [freshRanked, h]

lemma clusterAttractions_nil (cfg : EngineConfig) :
    clusterAttractions cfg [] = [] := by
  rw [clusterAttractions]
  apply List.filter_eq_nil_iff.mpr
  intro c hc
  rcases List.mem_map.mp hc with ⟨i, _, rfl⟩
  simp [bandMembers]

lemma clampDays_le (cfg : EngineConfig) (hrange : cfg.minDays ≤ cfg.maxDays)
    (d : Int) : clampDays cfg d ≤ cfg.maxDays := by
  rw [clampDays]; omega

lemma clampDays_ge (cfg : EngineConfig) (d : Int) :
    cfg.minDays ≤ clampDays cfg d := by
  rw [clampDays]; omega

/-- Claim C1: for every city and days input, `planTrip` surfaces at most the
two error kinds `LocationNotFound` and `InvalidRequest`; a weather-adapter
failure is absorbed into an empty forecast, an attractions-adapter failure
into an empty attraction list and empty clusters, and when both enrichment
sources fail the operation still succeeds with a location-only trip plan. -/
theorem C1_error_absorption :
    (∀ env cfg cache city days e c',
        planTrip env cfg cache city days = (Except.error e, c') →
        e = PlanError.LocationNotFound ∨ e = PlanError.InvalidRequest) ∧
    (∀ env cfg cache city days loc,
        (normalizeCity city).isEmpty = false →
        cacheGet (cacheKey city (clampDays cfg days)) cache = none →
        env.geocode city = some loc →
        env.fetchWeather loc.lat loc.lon (clampDays cfg days) = none →
        ∃ p c', planTrip env cfg cache city days = (Except.ok p, c') ∧
          p.weather_forecast = []) ∧
    (∀ env cfg cache city days loc,
        (normalizeCity city).isEmpty = false →
        cacheGet (cacheKey city (clampDays cfg days)) cache = none →
        env.geocode city = some loc →
        env.fetchPlaces loc.lat loc.lon = none →
        ∃ p c', planTrip env cfg cache city days = (Except.ok p, c') ∧
          p.top_attractions = [] ∧ p.travel_notes.distance_clusters = []) ∧
    (∀ env cfg cache city days loc,
        (normalizeCity city).isEmpty = false →
        cacheGet (cacheKey city (clampDays cfg days)) cache = none →
        env.geocode city = some loc →
        env.fetchWeather loc.lat loc.lon (clampDays cfg days) = none →
        env.fetchPlaces loc.lat loc.lon = none →
        ∃ p c', planTrip env cfg cache city days = (Except.ok p, c') ∧
          p.weather_forecast = [] ∧ p.top_attractions = [] ∧
          p.travel_notes.distance_clusters = [] ∧ p.city = loc.city ∧
          p.coordinates = { lat := loc.lat, lon := loc.lon }) := by
  refine ⟨?_, ?_, ?_, ?_⟩
  · intro env cfg cache city days e c' h
    rcases planTrip_cases env cfg cache city days with
      ⟨_, heq⟩ | ⟨_, p, _, heq⟩ | ⟨_, _, _, heq⟩ | ⟨_, _, loc, _, heq⟩ <;>
      rw [heq] at h
    · simp only [Prod.mk.injEq, Except.error.injEq] at h
      exact Or.inr h.1.symm
    · simp at h
    · simp only [Prod.mk.injEq, Except.error.injEq] at h
      exact Or.inl h.1.symm
    · simp at h
  · intro env cfg cache city days loc hv hm hg hw
    refine ⟨freshPlan env cfg loc (clampDays cfg days), _,
      planTrip_fresh env cfg cache city days loc hv hm hg, ?_⟩
    exact freshForecast_none env loc _ hw
  · intro env cfg cache city days loc hv hm hg hp
    refine ⟨freshPlan env cfg loc (clampDays cfg days), _,
      planTrip_fresh env cfg cache city days loc hv hm hg, ?_, ?_⟩
    · show (freshRanked env cfg loc).map PlacedAtt.toAttraction = []
      rw [freshRanked_none env cfg loc hp]
      rfl
    · show clusterAttractions cfg (freshRanked env cfg loc) = []
      rw [freshRanked_none env cfg loc hp]
      exact clusterAttractions_nil cfg
  · intro env cfg cache city days loc hv hm hg hw hp
    refine ⟨freshPlan env cfg loc (clampDays cfg days), _,
      planTrip_fresh env cfg cache city days loc hv hm hg,
      freshForecast_none env loc _ hw, ?_, ?_, rfl, rfl⟩
    · show (freshRanked env cfg loc).map PlacedAtt.toAttraction = []
      rw [freshRanked_none env cfg loc hp]
      rfl
    · show clusterAttractions cfg (freshRanked env cfg loc) = []
      rw [freshRanked_none env cfg loc hp]
      exact clusterAttractions_nil cfg

/-- Witness for C1 at a concrete input: with both enrichment sources down,
planning a Rome trip still succeeds with empty forecast, empty attractions
and empty clusters, and the location populated. -/
theorem C1_error_absorption_witness :
    ∃ p c', planTrip envNoSources exCfg [] "Rome" 3 = (Except.ok p, c') ∧
      p.weather_forecast = [] ∧ p.top_attractions = [] ∧
      p.travel_notes.distance_clusters = [] ∧ p.city = exLoc.city ∧
      p.coordinates = { lat := exLoc.lat, lon := exLoc.lon } :=
  C1_error_absorption.2.2.2 envNoSources exCfg [] "Rome" 3 exLoc
    (by decide) rfl (by decide) rfl rfl

/-- Claim C2: every trip plan returned by `planTrip` (from a well-formed
cache, i.e. one whose entries the engine itself wrote) has cluster counts
summing to `total_attractions`, and its clusters cover the attraction list
exactly once: the flattened cluster member names are a permutation of the
attraction names.  The resulting cache is well formed again. -/
theorem C2_cluster_partition :
    ∀ env cfg cache city days, CacheWF cache →
      ∀ p c', planTrip env cfg cache city days = (Except.ok p, c') →
        ((p.travel_notes.distance_clusters.map (·.count)).sum =
            p.travel_notes.total_attractions) ∧
        List.Perm ((p.travel_notes.distance_clusters.map (·.attractions)).flatten)
          (p.top_attractions.map (·.name)) ∧
        CacheWF c' := by
  intro env cfg cache city days hwf p c' h
  rcases planTrip_cases env cfg cache city days with
    ⟨_, heq⟩ | ⟨_, q, hget, heq⟩ | ⟨_, _, _, heq⟩ | ⟨_, _, loc, _, heq⟩ <;>
    rw [heq] at h
  · simp at h
  · simp only [Prod.mk.injEq, Except.ok.injEq] at h
    obtain ⟨hq, hc⟩ := h
    have hinv : PlanInv q := hwf _ q (cacheGet_mem _ cache q hget)
    have hinv' : PlanInv p := hq ▸ planInv_setCached q true hinv
    exact ⟨hinv'.1, hinv'.2, hc ▸ hwf⟩
  · simp at h
  · simp only [Prod.mk.injEq, Except.ok.injEq] at h
    obtain ⟨hq, hc⟩ := h
    have hinv : PlanInv p := hq ▸ planInv_freshPlan env cfg loc (clampDays cfg days)
    refine ⟨hinv.1, hinv.2, ?_⟩
    rw [← hc]
    intro k r hr
    rcases List.mem_cons.mp hr with hr | hr
    · have : r = freshPlan env cfg loc (clampDays cfg days) := congrArg Prod.snd hr
      exact this ▸ planInv_freshPlan env cfg loc (clampDays cfg days)
    · exact hwf k r hr

/-- Witness for C2 at a concrete input: a fresh Rome plan from the empty
cache satisfies the cluster/count invariant. -/
theorem C2_cluster_partition_witness :
    ∃ p c', planTrip envGood exCfg [] "Rome" 3 = (Except.ok p, c') ∧
      ((p.travel_notes.distance_clusters.map (·.count)).sum =
          p.travel_notes.total_attractions) ∧
      List.Perm ((p.travel_notes.distance_clusters.map (·.attractions)).flatten)
        (p.top_attractions.map (·.name)) := by
  have heq := planTrip_fresh envGood exCfg [] "Rome" 3 exLoc (by decide) rfl
    (by decide)
  obtain ⟨h1, h2, _⟩ := C2_cluster_partition envGood exCfg [] "Rome" 3
    (fun k p h => absurd h (List.not_mem_nil _)) _ _ heq
  exact ⟨_, _, heq, h1, h2⟩

/-- Claim C3: when the key is not yet cached, a successful `planTrip` call
followed by an identical call (same city and days, unchanged adapters,
within the entry's lifetime) returns the same trip plan except for the
`cached` flag — false on the first call, true on the second — and leaves
the cache as the first call wrote it. -/
theorem C3_cache_idempotence :
    ∀ env cfg cache city days p1 c1,
      cacheGet (cacheKey city (clampDays cfg days)) cache = none →
      planTrip env cfg cache city days = (Except.ok p1, c1) →
      p1.cached = false ∧
      planTrip env cfg c1 city days = (Except.ok { p1 with cached := true }, c1) := by
  intro env cfg cache city days p1 c1 hm h
  rcases planTrip_cases env cfg cache city days with
    ⟨_, heq⟩ | ⟨_, q, hget, heq⟩ | ⟨_, _, _, heq⟩ | ⟨hv, _, loc, hg, heq⟩
  · rw [heq] at h; simp at h
  · rw [hget] at hm; simp at hm
  · rw [heq] at h; simp at h
  · rw [heq] at h
    simp only [Prod.mk.injEq, Except.ok.injEq] at h
    obtain ⟨hp, hc⟩ := h
    refine ⟨hp ▸ rfl, ?_⟩
    have hhit : cacheGet (cacheKey city (clampDays cfg days)) c1 =
        some (freshPlan env cfg loc (clampDays cfg days)) := by
      rw [← hc, cacheSet, cacheGet]
      exact if_pos rfl
    rw [planTrip_hit env cfg c1 city days
      (freshPlan env cfg loc (clampDays cfg days)) hv hhit, hp]

/-- Witness for C3 at a concrete input: the second identical Rome request is
served from the cache written by the first, differing only in `cached`. -/
theorem C3_cache_idempotence_witness :
    ∃ p1 c1, planTrip envGood exCfg [] "Rome" 3 = (Except.ok p1, c1) ∧
      p1.cached = false ∧
      planTrip envGood exCfg c1 "Rome" 3 =
        (Except.ok { p1 with cached := true }, c1) := by
  have heq := planTrip_fresh envGood exCfg [] "Rome" 3 exLoc (by decide) rfl
    (by decide)
  obtain ⟨h1, h2⟩ := C3_cache_idempotence envGood exCfg [] "Rome" 3 _ _ rfl heq
  exact ⟨_, _, heq, h1, h2⟩

/-- Counterexample to claim C4 as stated: with the weather source
unavailable, the Rome request for 3 days succeeds (per the spec's own
best-effort fallback, §4.1 step 5) with `days = 3` but a forecast of length
0 — so a non-failing request whose forecast length differs from the clamped
day count exists. -/
theorem C4_counterexample :
    (planTrip envNoWeather exCfg [] "Rome" 3).1.map
        (fun p => (p.days, p.weather_forecast.length)) = Except.ok (3, 0) ∧
    (0 : Nat) ≠ 3 := by
  constructor
  · have heq := planTrip_fresh envNoWeather exCfg [] "Rome" 3 exLoc (by decide)
      rfl (by decide)
    rw [congrArg Prod.fst heq]
    rfl
  · decide

/-- Claim C4, amended: for every fresh build (valid city, cache miss,
successful geocode), the returned trip plan's forecast length equals the
clamped day count when the weather source succeeds with one bucket per
requested day, and is 0 when the weather source is unavailable. -/
theorem C4_forecast_length :
    ∀ env cfg cache city days loc,
      (normalizeCity city).isEmpty = false →
      cacheGet (cacheKey city (clampDays cfg days)) cache = none →
      env.geocode city = some loc →
      ∃ c', planTrip env cfg cache city days =
          (Except.ok (freshPlan env cfg loc (clampDays cfg days)), c') ∧
        (env.fetchWeather loc.lat loc.lon (clampDays cfg days) = none →
          (freshPlan env cfg loc (clampDays cfg days)).weather_forecast.length = 0) ∧
        (∀ bs, env.fetchWeather loc.lat loc.lon (clampDays cfg days) = some bs →
          bs.length = clampDays cfg days →
          (freshPlan env cfg loc (clampDays cfg days)).weather_forecast.length =
            clampDays cfg days) := by
  intro env cfg cache city days loc hv hm hg
  refine ⟨_, planTrip_fresh env cfg cache city days loc hv hm hg, ?_, ?_⟩
  · intro hw
    show (freshForecast env loc (clampDays cfg days)).length = 0
    rw [freshForecast_none env loc _ hw]
    rfl
  · intro bs hw hlen
    show (freshForecast env loc (clampDays cfg days)).length = clampDays cfg days
    rw [freshForecast_some env loc _ bs hw]
    exact hlen

/-- Witness for C4 (amended) at a concrete input: with a healthy weather
source, the 3-day Rome plan's forecast has length `clampDays exCfg 3`. -/
theorem C4_forecast_length_witness :
    (freshPlan envGood exCfg exLoc (clampDays exCfg 3)).weather_forecast.length =
      clampDays exCfg 3 := by
  obtain ⟨c', hplan, hnone, hsome⟩ := C4_forecast_length envGood exCfg [] "Rome"
    3 exLoc (by decide) rfl (by decide)
  exact hsome (exBuckets (clampDays exCfg 3)) rfl (by decide)

/-- Claim C5: the requested day count is clamped to the nearest bound of the
supported range before any fetch and never causes a failure: an in-range
value is kept, a value below the minimum becomes the minimum, a value above
the maximum becomes the maximum, the returned plan's `days` field is the
clamped count, and with a healthy weather source (one bucket per requested
day) the forecast has that same length. -/
theorem C5_day_clamping :
    ∀ cfg : EngineConfig, cfg.minDays ≤ cfg.maxDays →
      (∀ n : Nat, cfg.minDays ≤ n → n ≤ cfg.maxDays →
        clampDays cfg (n : Int) = n) ∧
      (∀ d : Int, d < (cfg.minDays : Int) → clampDays cfg d = cfg.minDays) ∧
      (∀ d : Int, (cfg.maxDays : Int) < d → clampDays cfg d = cfg.maxDays) ∧
      (∀ env cache city days loc,
        (normalizeCity city).isEmpty = false →
        cacheGet (cacheKey city (clampDays cfg days)) cache = none →
        env.geocode city = some loc →
        ∃ c', planTrip env cfg cache city days =
            (Except.ok (freshPlan env cfg loc (clampDays cfg days)), c') ∧
          (freshPlan env cfg loc (clampDays cfg days)).days =
            clampDays cfg days ∧
          (∀ bs, env.fetchWeather loc.lat loc.lon (clampDays cfg days) = some bs →
            bs.length = clampDays cfg days →
            (freshPlan env cfg loc (clampDays cfg days)).weather_forecast.length =
              clampDays cfg days)) := by
  intro cfg hrange
  refine ⟨?_, ?_, ?_, ?_⟩
  · intro n h1 h2
    rw [clampDays]
    omega
  · intro d h
    rw [clampDays]
    omega
  · intro d h
    rw [clampDays]
    omega
  · intro env cache city days loc hv hm hg
    refine ⟨_, planTrip_fresh env cfg cache city days loc hv hm hg,
      freshPlan_days env cfg loc (clampDays cfg days), ?_⟩
    intro bs hw hlen
    show (freshForecast env loc (clampDays cfg days)).length = clampDays cfg days
    rw [freshForecast_some env loc _ bs hw]
    exact hlen

/-- Witness for C5 at a concrete input: requesting 10 days for Rome yields a
plan whose `days` equals the configured maximum, 5, and whose forecast has
that same length. -/
theorem C5_day_clamping_witness :
    clampDays exCfg 10 = exCfg.maxDays ∧
    (freshPlan envGood exCfg exLoc (clampDays exCfg 10)).days = exCfg.maxDays ∧
    (freshPlan envGood exCfg exLoc (clampDays exCfg 10)).weather_forecast.length =
      exCfg.maxDays := by
  have h := C5_day_clamping exCfg (by decide)
  have hmax : clampDays exCfg 10 = exCfg.maxDays := h.2.2.1 10 (by decide)
  obtain ⟨c', hplan, hdays, hlen⟩ := h.2.2.2 envGood [] "Rome" 10 exLoc
    (by decide) rfl (by decide)
  refine ⟨hmax, ?_, ?_⟩
  · rw [hdays, hmax]
  · rw [hlen (exBuckets (clampDays exCfg 10)) rfl (by decide), hmax]

/-- Claim C6: when geocoding fails on a valid, uncached city, `planTrip`
fails with `LocationNotFound` and the cache state it returns is exactly the
cache state it was given — no cache write occurs. -/
theorem C6_geofail_no_write :
    ∀ env cfg cache city days,
      (normalizeCity city).isEmpty = false →
      cacheGet (cacheKey city (clampDays cfg days)) cache = none →
      env.geocode city = none →
      planTrip env cfg cache city days =
        (Except.error PlanError.LocationNotFound, cache) := by
  intro env cfg cache city days hv hm hg
  exact planTrip_geoFail env cfg cache city days hv hm hg

/-- Witness for C6 at a concrete input: the unknown city `"Zzzxyqplace"`
yields `LocationNotFound` and leaves the (empty) cache untouched. -/
theorem C6_geofail_no_write_witness :
    planTrip envGood exCfg [] "Zzzxyqplace" 3 =
      (Except.error PlanError.LocationNotFound, []) :=
  C6_geofail_no_write envGood exCfg [] "Zzzxyqplace" 3 (by decide) rfl (by decide)

/-- Claim C7: the engine's attraction list is sorted by the composite
relevance order (rating descending with a missing rating lowest, ties by
distance ascending) and truncated to top-N; on the spec's example input
(A: 4.5 at 1.0, B: unrated at 0.1, C: 4.5 at 0.5) the plan's attraction
order is C, A, B. -/
theorem C7_ranking :
    (∀ cfg l, List.Sorted rankLE (rankAttractions cfg l) ∧
      (rankAttractions cfg l).length ≤ cfg.topN) ∧
    (planTrip envGood exCfg [] "Rome" 3).1.map
        (fun p => p.top_attractions.map (·.name)) = Except.ok ["C", "A", "B"] := by
  constructor
  · intro cfg l
    constructor
    · exact List.Pairwise.sublist (List.take_sublist _ _)
        (List.sorted_insertionSort rankLE l)
    · exact List.length_take_le _ _
  · rfl

/-- Claim C8: every trip plan serializes to a JSON object with exactly the
fields `city, country, coordinates{lat,lon}, days, weather_forecast,
top_attractions, travel_notes{distance_clusters, total_attractions},
cached`, and every attraction serializes with exactly `name, category,
distance, address, rating` (the optional ones as null when absent). -/
theorem C8_wire_shape :
    (∀ p : TripPlan, (tripJson p).keys =
      ["city", "country", "coordinates", "days", "weather_forecast",
       "top_attractions", "travel_notes", "cached"]) ∧
    (∀ c : Coordinates, (coordJson c).keys = ["lat", "lon"]) ∧
    (∀ a : Attraction, (attractionJson a).keys =
      ["name", "category", "distance", "address", "rating"]) ∧
    (∀ t : TravelNotes, (travelNotesJson t).keys =
      ["distance_clusters", "total_attractions"]) :=
  ⟨fun _ => rfl, fun _ => rfl, fun _ => rfl, fun _ => rfl⟩

/-- Claim C9: a chat submit with whitespace-only input or while loading is a
no-op — the state is unchanged and no request is issued — and the send
button is disabled in exactly those states; whenever a request is issued,
the sent message is the trimmed input, it is non-empty, and it is the one
message appended to the list. -/
theorem C9_submit_guard :
    ∀ s : ChatState,
      (((trimStr s.input).isEmpty = true ∨ s.isLoading = true) →
        handleSubmit s = (s, none) ∧ sendDisabled s = true) ∧
      (∀ s' r, handleSubmit s = (s', some r) →
        r = trimStr s.input ∧ r.isEmpty = false ∧
        s'.messages = s.messages ++ [{ content := r, isUser := true }] ∧
        sendDisabled s = false) := by
  intro s
  constructor
  · intro h
    have hc : ((trimStr s.input).isEmpty || s.isLoading) = true := by
      rcases h with h | h <;> simp [h]
    constructor
    · simp [handleSubmit, hc]
    · simp [sendDisabled, hc]
  · intro s' r h
    by_cases hc : ((trimStr s.input).isEmpty || s.isLoading) = true
    · rw [handleSubmit, if_pos hc] at h
      simp at h
    · have hc2 : (trimStr s.input).isEmpty = false ∧ s.isLoading = false := by
        revert hc
        cases (trimStr s.input).isEmpty <;> cases s.isLoading <;> simp
      rw [handleSubmit, if_neg hc] at h
      simp only [Prod.mk.injEq, Option.some.injEq] at h
      obtain ⟨hs, hr⟩ := h
      refine ⟨hr.symm, hr ▸ hc2.1, ?_, ?_⟩
      · rw [← hs, hr]
      · simp [sendDisabled, hc2.1, hc2.2]

/-- Witness for C9 at a concrete input: submitting the whitespace-only
input `"   "` (not loading) changes nothing, issues nothing, and the send
button is disabled. -/
theorem C9_submit_guard_witness :
    handleSubmit { messages := [], input := "   ", isLoading := false } =
      ({ messages := [], input := "   ", isLoading := false }, none) ∧
    sendDisabled { messages := [], input := "   ", isLoading := false } = true :=
  (C9_submit_guard _).1 (Or.inl (by decide))

/-- Claim C10: `sendChatMessage` returns the parsed body exactly when the
response status is ok (2xx); on every non-ok status it throws an error whose
message carries the status, so a caller never observes a body from a failed
response. -/
theorem C10_api_error_propagation :
    ∀ r : HttpResponse,
      (responseOk r = true → sendChatMessage r = Except.ok r.body) ∧
      (responseOk r = false →
        sendChatMessage r =
          Except.error ("Failed to send message: " ++ toString r.status)) ∧
      (∀ b, sendChatMessage r = Except.ok b →
        responseOk r = true ∧ b = r.body) := by
  intro r
  refine ⟨?_, ?_, ?_⟩
  · intro h
    simp [sendChatMessage, h]
  · intro h
    simp [sendChatMessage, h]
  · intro b h
    by_cases hc : responseOk r = true
    · rw [sendChatMessage, if_pos hc] at h
      injection h with h
      exact ⟨hc, h.symm⟩
    · rw [sendChatMessage, if_neg hc] at h
      simp at h

/-- Witness for C10 at concrete inputs: a 200 response yields its body, a
500 response yields the error message carrying the status. -/
theorem C10_api_error_propagation_witness :
    sendChatMessage { status := 200, body := Json.null } = Except.ok Json.null ∧
    sendChatMessage { status := 500, body := Json.null } =
      Except.error ("Failed to send message: " ++ toString (500 : Nat)) :=
  ⟨(C10_api_error_propagation { status := 200, body := Json.null }).1 (by decide),
   (C10_api_error_propagation { status := 500, body := Json.null }).2.1 (by decide)⟩

end TravelPlanner
